import Mathlib

/-!
Shallow embedding of `src/mobile-app/app/(tabs)/bluetooth.tsx`, the single
screen of the Mecanum_Wheels_Robot_Car mobile app.  The screen scans for BLE
peripherals, connects to one, and writes a base64-encoded text payload to the
first writable characteristic.

The component's view state (`devices`, `scanning`, `connected`, `payload`) is
modelled as a record; each handler of the source becomes a pure function from
that state (plus the results of the external BLE library calls, passed as
explicit parameters) to a new state and an ordered list of observable effects
(alerts, console logs, BLE library calls).  The `try`/`catch` wrappers of the
source convert exceptions of the library calls into alerts; the branches
reachable in each claim are modelled by parametrising over the outcome of the
fallible calls (`ConnectOutcome`, `ScanEvent`, permission results).
-/

namespace Mecanum

/-- A GATT characteristic as the `react-native-ble-plx` library exposes it to
`sendPayload`: its UUID and the two writability flags the code reads. -/
structure Characteristic where
  uuid : String
  isWritableWithResponse : Bool
  isWritableWithoutResponse : Bool
  deriving DecidableEq

/-- A GATT service: its UUID and the characteristics that
`service.characteristics()` returns, in order. -/
structure Service where
  uuid : String
  characteristics : List Characteristic
  deriving DecidableEq

/-- A BLE device as the library exposes it: identifier, optional display
name, and (after discovery) the services that `device.services()` returns. -/
structure Device where
  id : String
  name : Option String
  services : List Service
  deriving DecidableEq

/-- The component's React state: `useState` hooks `devices`, `scanning`,
`connected`, `payload` of `BluetoothScreen`. -/
structure ScreenState where
  devices : List Device
  scanning : Bool
  connected : Option Device
  payload : String
  deriving DecidableEq

/-- Observable effects of a handler run: user-facing alerts, console logs and
the calls made into the BLE library, in program order. -/
inductive Effect where
  | alert (title message : String)
  | log (message : String)
  | startDeviceScan
  | stopDeviceScan
  | removeSubscription
  | connectDevice (deviceId : String)
  | discoverServices (deviceId : String)
  | getServices (deviceId : String)
  | getCharacteristics (serviceUuid : String)
  | writeCharacteristic (deviceId serviceUuid charUuid value : String)
      (withResponse : Bool)
  | cancelConnection (deviceId : String)
  deriving DecidableEq

/-- Whether an effect is a characteristic write. -/
def Effect.isWrite : Effect → Bool
  | Effect.writeCharacteristic _ _ _ _ _ => true
  | _ => false

/-- Whether an effect is a user-facing alert. -/
def Effect.isAlert : Effect → Bool
  | Effect.alert _ _ => true
  | _ => false

/-- Whether an effect is a console log. -/
def Effect.isLog : Effect → Bool
  | Effect.log _ => true
  | _ => false

/-- Message of the `ensureManager` alert shown when the BLE native module is
unavailable. -/
def bleUnavailableMsg : String :=
  "El módulo BLE no está disponible en este entorno. Usa un cliente nativo o un build personalizado."

/-- The base64 alphabet used by the `base-64` package's `encode`. -/
def base64Alphabet : List Char :=
  "ABCDEFGHIJKLMNOPQRSTUVWXYZabcdefghijklmnopqrstuvwxyz0123456789+/".toList

/-- The base64 digit for a 6-bit value. -/
def b64digit (n : Nat) : Char :=
  base64Alphabet.getD n '='

/-- Standard base64 of a byte sequence, three bytes to four digits with `=`
padding, as the `base-64` package computes it. -/
def base64EncodeBytes : List Nat → String
  | [] => ""
  | [b1] =>
      String.mk [b64digit (b1 / 4), b64digit (b1 % 4 * 16), '=', '=']
  | [b1, b2] =>
      String.mk [b64digit (b1 / 4), b64digit (b1 % 4 * 16 + b2 / 16),
        b64digit (b2 % 16 * 4), '=']
  | b1 :: b2 :: b3 :: rest =>
      String.mk [b64digit (b1 / 4), b64digit (b1 % 4 * 16 + b2 / 16),
        b64digit (b2 % 16 * 4 + b3 / 64), b64digit (b3 % 64)]
        ++ base64EncodeBytes rest

/-- `encode` of the `base-64` package (imported as `btoa` in the source): it
base64-encodes the string's character codes.  (For codes above 255 the JS
library throws; the payloads of the claims are plain text, so the code-point
sequence is the byte sequence.) -/
def btoa (s : String) : String :=
  base64EncodeBytes (s.toList.map Char.toNat)

/-- The writability test of `sendPayload`'s inner loop:
`c.isWritableWithResponse || c.isWritableWithoutResponse`. -/
def isWritable (c : Characteristic) : Bool :=
  c.isWritableWithResponse || c.isWritableWithoutResponse

/-- The service loop of `sendPayload`: for each service in order it fetches
the characteristics, scans them in order for the first writable one, writes
the base64 payload there via `writeCharacteristicWithResponseForDevice` and
returns; services after the write are never examined.  If every service is
exhausted it alerts that no writable characteristic was found. -/
def sendLoop (deviceId payload : String) : List Service → List Effect
  | [] => [Effect.alert "No characteristic" "No se encontró característica escribible"]
  | s :: rest =>
      Effect.getCharacteristics s.uuid ::
        match s.characteristics.find? isWritable with
        | some c =>
            [Effect.writeCharacteristic deviceId s.uuid c.uuid (btoa payload) true,
             Effect.alert "Enviado" "Payload enviado correctamente"]
        | none => sendLoop deviceId payload rest

/-- `sendPayload`: guarded by `ensureManager` (alert when the BLE module is
absent) and by the `connected` state (alert when null); otherwise it
enumerates the connected device's services with `sendLoop`.  The library
calls are modelled as succeeding; the `catch` branch only converts their
exceptions into a generic alert. -/
def sendPayload (managerPresent : Bool) (connected : Option Device)
    (payload : String) : List Effect :=
  if managerPresent = false then
    [Effect.alert "BLE no disponible" bleUnavailableMsg]
  else
    match connected with
    | none => [Effect.alert "No conectado" "Conéctate a un dispositivo primero"]
    | some d => Effect.getServices d.id :: sendLoop d.id payload d.services

/-- Result of `PermissionsAndroid.requestMultiple` for the three permissions
the code requests: whether each one came back `GRANTED`. -/
structure PermissionResults where
  fineLocation : Bool
  bluetoothScan : Bool
  bluetoothConnect : Bool
  deriving DecidableEq

/-- `requestAndroidPermissions`: on non-Android platforms it returns `true`
immediately; on Android it requests the three permissions and returns whether
fine location OR Bluetooth-scan was granted (Bluetooth-connect alone does not
count); a thrown request is caught and yields `false`. -/
def requestAndroidPermissions (isAndroid : Bool)
    (request : Except Unit PermissionResults) : Bool :=
  if isAndroid = false then true
  else
    match request with
    | Except.error _ => false
    | Except.ok granted => granted.fineLocation || granted.bluetoothScan

/-- An event delivered to the `startDeviceScan` listener: either an error or
a (possibly null) discovered device. -/
inductive ScanEvent where
  | scanError (message : String)
  | found (device : Option Device)
  deriving DecidableEq

/-- The deduplicating `setDevices` updater of the scan listener: if some
entry of `prev` already has the discovered device's id the list is returned
unchanged, otherwise the device is appended. -/
def onDeviceFound (prev : List Device) (device : Device) : List Device :=
  match prev.find? (fun d => d.id == device.id) with
  | some _ => prev
  | none => prev ++ [device]

/-- The scan listener body: on an error it logs `Scan error` and clears the
`scanning` flag (no alert, no other state change); on a discovery it appends
the device through `onDeviceFound` provided the device and its id are truthy
(a null device or empty id is ignored). -/
def onScanEvent (st : ScreenState) (ev : ScanEvent) : ScreenState × List Effect :=
  match ev with
  | ScanEvent.scanError msg =>
      ({ st with scanning := false }, [Effect.log ("Scan error " ++ msg)])
  | ScanEvent.found none => (st, [])
  | ScanEvent.found (some d) =>
      if d.id = "" then (st, [])
      else ({ st with devices := onDeviceFound st.devices d }, [])

/-- Runs a sequence of scan-listener events against the component state. -/
def runScanEvents (st : ScreenState) (evs : List ScanEvent) : ScreenState :=
  evs.foldl (fun s e => (onScanEvent s e).1) st

/-- `startScan`: aborts with the `ensureManager` alert when the BLE module is
absent; aborts with the `Permisos` alert when `requestAndroidPermissions`
returns false; otherwise clears the device list, sets the `scanning` flag and
starts the device scan. -/
def startScan (managerPresent : Bool) (isAndroid : Bool)
    (request : Except Unit PermissionResults) (st : ScreenState) :
    ScreenState × List Effect :=
  if managerPresent = false then
    (st, [Effect.alert "BLE no disponible" bleUnavailableMsg])
  else if requestAndroidPermissions isAndroid request = false then
    (st, [Effect.alert "Permisos" "No se concedieron permisos necesarios para escaneo BLE"])
  else
    ({ st with devices := [], scanning := true }, [Effect.startDeviceScan])

/-- `stopScan`: a no-op when the BLE module is absent; otherwise stops the
device scan, clears the `scanning` flag and removes the scan subscription. -/
def stopScan (managerPresent : Bool) (st : ScreenState) :
    ScreenState × List Effect :=
  if managerPresent = false then (st, [])
  else
    ({ st with scanning := false },
     [Effect.stopDeviceScan, Effect.removeSubscription])

/-- Outcome of the fallible library calls inside `connectToDevice`'s `try`
block: `manager.connectToDevice` may throw, then
`discoverAllServicesAndCharacteristics` may throw, else both succeed and `d`
is the device object the library returned. -/
inductive ConnectOutcome where
  | connectFailed
  | discoverFailed (d : Device)
  | success (d : Device)
  deriving DecidableEq

/-- The `d.name || d.id` display expression of the success alert: JavaScript
`||` falls through to the id when the name is null or the empty string. -/
def displayName (d : Device) : String :=
  match d.name with
  | some n => if n = "" then d.id else n
  | none => d.id

/-- `connectToDevice`: guarded by `ensureManager`; then `stopScan()` runs
first, then the connection is opened, services are discovered and the device
is stored in `connected` with a success alert; a throw at either library call
is caught, logged and reported as a generic failure alert, leaving
`connected` untouched. -/
def connectToDevice (managerPresent : Bool) (st : ScreenState)
    (device : Device) (oc : ConnectOutcome) : ScreenState × List Effect :=
  if managerPresent = false then
    (st, [Effect.alert "BLE no disponible" bleUnavailableMsg])
  else
    let p := stopScan managerPresent st
    match oc with
    | ConnectOutcome.connectFailed =>
        (p.1, p.2 ++ [Effect.connectDevice device.id,
          Effect.log "connect error", Effect.alert "Error" "No se pudo conectar"])
    | ConnectOutcome.discoverFailed d =>
        (p.1, p.2 ++ [Effect.connectDevice device.id,
          Effect.discoverServices d.id, Effect.log "connect error",
          Effect.alert "Error" "No se pudo conectar"])
    | ConnectOutcome.success d =>
        ({ p.1 with connected := some d },
         p.2 ++ [Effect.connectDevice device.id, Effect.discoverServices d.id,
           Effect.alert "Conectado" ("Conectado a " ++ displayName d)])

/-- The identifiers bound in the scope of `BluetoothScreen`'s JSX: the module
imports, the module-level declarations, and the hooks and functions declared
inside the component body.  (`manager` is only ever a `const` local to the
bodies of `startScan`, `stopScan`, `connectToDevice` and `sendPayload`; no
such binding exists where the render's `onPress` closures are created.) -/
def componentScopeIds : List String :=
  ["React", "useEffect", "useRef", "useState", "BleManager", "Device", "btoa",
   "Alert", "FlatList", "Platform", "PermissionsAndroid", "StyleSheet", "Text",
   "TextInput", "TouchableOpacity", "View", "ThemedText", "ThemedView",
   "requestAndroidPermissions", "BluetoothScreen", "styles",
   "devices", "setDevices", "scanning", "setScanning", "connected",
   "setConnected", "payload", "setPayload", "scanSubscription", "managerRef",
   "ensureManager", "startScan", "stopScan", "connectToDevice", "sendPayload"]

/-- The disconnect button's `onPress` handler: when `connected` is truthy it
evaluates `manager.cancelDeviceConnection(connected.id)`.  JavaScript first
resolves the free identifier `manager` against the enclosing scopes; when no
binding exists the statement throws a `ReferenceError` and the following
`setConnected(null)` and alert never execute. -/
def disconnectOnPress (st : ScreenState) :
    Except String (ScreenState × List Effect) :=
  match st.connected with
  | none => Except.ok (st, [])
  | some d =>
      if componentScopeIds.contains "manager" then
        Except.ok ({ st with connected := none },
          [Effect.cancelConnection d.id, Effect.alert "Desconectado" ""])
      else
        Except.error "ReferenceError: manager is not defined"

/-! ### Helper lemmas -/

/-- `find?` on a list whose prefix has no writable characteristic returns the
first writable one. -/
theorem find?_writable_append (cpre : List Characteristic) (c : Characteristic)
    (cpost : List Characteristic) (h : ∀ x ∈ cpre, isWritable x = false)
    (hc : isWritable c = true) :
    (cpre ++ c :: cpost).find? isWritable = some c := by
  induction cpre with
  | nil => simp [List.find?_cons, hc]
  | cons a t ih =>
      have ha : isWritable a = false := h a (by simp)
      simp only [List.cons_append, List.find?_cons, ha]
      exact ih fun x hx => h x (by simp [hx])

/-- `sendLoop` walks past a prefix of services with no writable
characteristic, emitting only their characteristic fetches. -/
theorem sendLoop_skip_unwritable (deviceId payload : String)
    (pre rest : List Service)
    (h : ∀ s ∈ pre, ∀ x ∈ s.characteristics, isWritable x = false) :
    sendLoop deviceId payload (pre ++ rest) =
      (pre.map fun s => Effect.getCharacteristics s.uuid) ++
        sendLoop deviceId payload rest := by
  induction pre with
  | nil => simp
  | cons a t ih =>
      have ha : a.characteristics.find? isWritable = none :=
        List.find?_eq_none.mpr fun x hx => by
          simp [h a (by simp) x hx]
      simp only [List.cons_append, sendLoop, ha, List.map_cons, List.append_eq]
      rw [ih fun s hs => h s (by simp [hs])]

/-- A list of characteristic-fetch effects contains no write. -/
theorem filter_isWrite_getChars (pre : List Service) :
    ((pre.map fun s => Effect.getCharacteristics s.uuid).filter
      Effect.isWrite) = [] := by
  induction pre with
  | nil => rfl
  | cons a t ih => simp [Effect.isWrite, ih]

/-- Every write emitted by `sendLoop` carries `withResponse = true`. -/
theorem sendLoop_write_response (deviceId payload : String)
    (services : List Service) (dId sU cU v : String) (r : Bool)
    (h : Effect.writeCharacteristic dId sU cU v r ∈
      sendLoop deviceId payload services) : r = true := by
  induction services with
  | nil => simp [sendLoop] at h
  | cons s rest ih =>
      simp only [sendLoop] at h
      rcases List.mem_cons.mp h with h | h
      · exact absurd h (by simp)
      · revert h
        cases s.characteristics.find? isWritable with
        | none => exact ih
        | some c =>
            intro h
            rcases List.mem_cons.mp h with h | h
            · injection h with h1 h2 h3 h4 h5
            · exact absurd (List.mem_singleton.mp h) (by simp)

/-! ### Claim theorems -/

/-- C1: for a connected device, `sendPayload` enumerates services in order
and characteristics in order, writes the base64-encoded payload exactly once
to the first characteristic flagged writable (with or without response), and
returns right after that write: the emitted trace fetches only the services
up to and including the writing one, never touching `post` or `cpost`, and
its only write targets that characteristic. -/
theorem sendPayload_writes_first_writable (d : Device) (payload : String)
    (pre post : List Service) (s : Service)
    (cpre cpost : List Characteristic) (c : Characteristic)
    (hs : d.services = pre ++ s :: post)
    (hpre : ∀ s' ∈ pre, ∀ x ∈ s'.characteristics, isWritable x = false)
    (hc : s.characteristics = cpre ++ c :: cpost)
    (hcpre : ∀ x ∈ cpre, isWritable x = false)
    (hw : isWritable c = true) :
    sendPayload true (some d) payload =
      [Effect.getServices d.id] ++
        (pre.map fun s' => Effect.getCharacteristics s'.uuid) ++
        [Effect.getCharacteristics s.uuid,
         Effect.writeCharacteristic d.id s.uuid c.uuid (btoa payload) true,
         Effect.alert "Enviado" "Payload enviado correctamente"] ∧
    (sendPayload true (some d) payload).filter Effect.isWrite =
      [Effect.writeCharacteristic d.id s.uuid c.uuid (btoa payload) true] := by
  have heq : sendPayload true (some d) payload =
      [Effect.getServices d.id] ++
        (pre.map fun s' => Effect.getCharacteristics s'.uuid) ++
        [Effect.getCharacteristics s.uuid,
         Effect.writeCharacteristic d.id s.uuid c.uuid (btoa payload) true,
         Effect.alert "Enviado" "Payload enviado correctamente"] := by
    simp only [sendPayload, Bool.true_eq_false, if_false, hs]
    rw [sendLoop_skip_unwritable _ _ _ _ hpre]
    simp only [sendLoop, hc, find?_writable_append _ _ _ hcpre hw]
    simp
  refine ⟨heq, ?_⟩
  rw [heq]
  simp [List.filter_append, filter_isWrite_getChars, Effect.isWrite]

/-- C1 witness: the only writable characteristic is the third characteristic
of the second service; the trace writes there exactly once and never fetches
the third service. -/
theorem sendPayload_writes_first_writable_witness :
    sendPayload true
        (some ⟨"dev1", some "robot",
          [⟨"s1", [⟨"c0", false, false⟩, ⟨"c1", false, false⟩]⟩,
           ⟨"s2", [⟨"c2", false, false⟩, ⟨"c3", false, false⟩,
             ⟨"c4", false, true⟩, ⟨"c5", true, true⟩]⟩,
           ⟨"s3", [⟨"c6", true, false⟩]⟩]⟩) "go" =
      [Effect.getServices "dev1", Effect.getCharacteristics "s1",
       Effect.getCharacteristics "s2",
       Effect.writeCharacteristic "dev1" "s2" "c4" (btoa "go") true,
       Effect.alert "Enviado" "Payload enviado correctamente"] ∧
    (sendPayload true
        (some ⟨"dev1", some "robot",
          [⟨"s1", [⟨"c0", false, false⟩, ⟨"c1", false, false⟩]⟩,
           ⟨"s2", [⟨"c2", false, false⟩, ⟨"c3", false, false⟩,
             ⟨"c4", false, true⟩, ⟨"c5", true, true⟩]⟩,
           ⟨"s3", [⟨"c6", true, false⟩]⟩]⟩) "go").filter Effect.isWrite =
      [Effect.writeCharacteristic "dev1" "s2" "c4" (btoa "go") true] :=
  sendPayload_writes_first_writable _ "go"
    [⟨"s1", [⟨"c0", false, false⟩, ⟨"c1", false, false⟩]⟩]
    [⟨"s3", [⟨"c6", true, false⟩]⟩]
    ⟨"s2", [⟨"c2", false, false⟩, ⟨"c3", false, false⟩,
      ⟨"c4", false, true⟩, ⟨"c5", true, true⟩]⟩
    [⟨"c2", false, false⟩, ⟨"c3", false, false⟩] [⟨"c5", true, true⟩]
    ⟨"c4", false, true⟩ rfl (by decide) rfl (by decide) (by decide)

/-- C3: for a connected device none of whose characteristics is writable,
`sendPayload` fetches every service's characteristics, performs zero writes,
and reports the specific `No characteristic` alert. -/
theorem sendPayload_no_writable_characteristic (d : Device) (payload : String)
    (h : ∀ s ∈ d.services, ∀ x ∈ s.characteristics, isWritable x = false) :
    sendPayload true (some d) payload =
      [Effect.getServices d.id] ++
        (d.services.map fun s => Effect.getCharacteristics s.uuid) ++
        [Effect.alert "No characteristic" "No se encontró característica escribible"] ∧
    (sendPayload true (some d) payload).filter Effect.isWrite = [] := by
  have heq : sendPayload true (some d) payload =
      [Effect.getServices d.id] ++
        (d.services.map fun s => Effect.getCharacteristics s.uuid) ++
        [Effect.alert "No characteristic" "No se encontró característica escribible"] := by
    simp only [sendPayload, Bool.true_eq_false, if_false]
    have := sendLoop_skip_unwritable d.id payload d.services [] h
    simp only [List.append_nil] at this
    rw [this]
    simp [sendLoop]
  refine ⟨heq, ?_⟩
  rw [heq]
  simp [List.filter_append, filter_isWrite_getChars, Effect.isWrite]

/-- C3 witness: a device with two services and three characteristics, none
writable. -/
theorem sendPayload_no_writable_characteristic_witness :
    sendPayload true
        (some ⟨"dev2", none,
          [⟨"s1", [⟨"c0", false, false⟩]⟩,
           ⟨"s2", [⟨"c1", false, false⟩, ⟨"c2", false, false⟩]⟩]⟩) "hola" =
      [Effect.getServices "dev2", Effect.getCharacteristics "s1",
       Effect.getCharacteristics "s2",
       Effect.alert "No characteristic" "No se encontró característica escribible"] ∧
    (sendPayload true
        (some ⟨"dev2", none,
          [⟨"s1", [⟨"c0", false, false⟩]⟩,
           ⟨"s2", [⟨"c1", false, false⟩, ⟨"c2", false, false⟩]⟩]⟩)
        "hola").filter Effect.isWrite = [] :=
  sendPayload_no_writable_characteristic _ "hola" (by decide)

/-- C4 (amended): when the BLE manager is available and `connected` is null,
`sendPayload` reports `No conectado` and returns without fetching services
and without any write. -/
theorem sendPayload_not_connected (payload : String) :
    sendPayload true none payload =
      [Effect.alert "No conectado" "Conéctate a un dispositivo primero"] := rfl

/-- C4 counterexample: with the BLE manager unavailable (the Expo Go
environment the source comments on) and `connected` null, `sendPayload`
reports `BLE no disponible`, not `No conectado`, so the claim's `whenever the
connected state is null` does not hold at this input. -/
theorem sendPayload_not_connected_counterexample :
    sendPayload false none "hola" =
      [Effect.alert "BLE no disponible" bleUnavailableMsg] ∧
    Effect.alert "No conectado" "Conéctate a un dispositivo primero" ∉
      sendPayload false none "hola" := by
  constructor
  · rfl
  · decide

/-- C9: every characteristic write `sendPayload` issues goes through the
with-response write call, whatever the selected characteristic's writability
flags are. -/
theorem sendPayload_write_always_with_response (managerPresent : Bool)
    (connected : Option Device) (payload : String)
    (dId sU cU v : String) (r : Bool)
    (h : Effect.writeCharacteristic dId sU cU v r ∈
      sendPayload managerPresent connected payload) : r = true := by
  cases managerPresent with
  | false => exact absurd (List.mem_singleton.mp h) (by simp)
  | true =>
      cases connected with
      | none => exact absurd (List.mem_singleton.mp h) (by simp)
      | some d =>
          rcases List.mem_cons.mp h with h | h
          · exact absurd h (by simp)
          · exact sendLoop_write_response d.id payload d.services dId sU cU v r h

/-- C9 witness: the selected characteristic is writable only WITHOUT
response, yet the write is issued with `withResponse = true`. -/
theorem sendPayload_write_always_with_response_witness :
    Effect.writeCharacteristic "dev3" "s1" "c1" (btoa "go") true ∈
      sendPayload true (some ⟨"dev3", none, [⟨"s1", [⟨"c1", false, true⟩]⟩]⟩) "go" ∧
    true = true :=
  ⟨by decide,
   sendPayload_write_always_with_response true
     (some ⟨"dev3", none, [⟨"s1", [⟨"c1", false, true⟩]⟩]⟩) "go"
     "dev3" "s1" "c1" (btoa "go") true (by decide)⟩

/-- The deduplicating updater preserves uniqueness of device ids. -/
theorem onDeviceFound_nodup (prev : List Device) (d : Device)
    (h : (prev.map Device.id).Nodup) :
    ((onDeviceFound prev d).map Device.id).Nodup := by
  unfold onDeviceFound
  cases hf : prev.find? (fun x => x.id == d.id) with
  | some _ => exact h
  | none =>
      have hni : d.id ∉ prev.map Device.id := by
        intro hm
        rcases List.mem_map.mp hm with ⟨x, hx, hxe⟩
        have hne := List.find?_eq_none.mp hf x hx
        simp [hxe] at hne
      have hdisj : List.Disjoint (prev.map Device.id) [d.id] :=
        fun a ha hb => hni (List.mem_singleton.mp hb ▸ ha)
      simpa using h.append (List.nodup_singleton d.id) hdisj

/-- Any sequence of scan-listener events preserves uniqueness of the ids in
the device list. -/
theorem runScanEvents_nodup (evs : List ScanEvent) (st : ScreenState)
    (h : (st.devices.map Device.id).Nodup) :
    ((runScanEvents st evs).devices.map Device.id).Nodup := by
  induction evs generalizing st with
  | nil => exact h
  | cons e rest ih =>
      have hstep : (((onScanEvent st e).1).devices.map Device.id).Nodup := by
        cases e with
        | scanError msg => simpa [onScanEvent] using h
        | found dev =>
            cases dev with
            | none => simpa [onScanEvent] using h
            | some d =>
                by_cases hd : d.id = ""
                · simpa [onScanEvent, hd] using h
                · simpa [onScanEvent, hd] using onDeviceFound_nodup st.devices d h
      exact ih _ hstep

/-- Permission results where everything was granted. -/
def permAllGranted : PermissionResults := ⟨true, true, true⟩

/-- C5: starting a scan (here: on Android with permissions granted) clears
the device list, and after any sequence of discovery events — duplicates
included — the list's device identifiers are pairwise distinct.  Since the
reset happens for every `startScan`, starting a scan twice without stopping
also cannot produce duplicates. -/
theorem scan_list_unique_ids (st : ScreenState) (evs : List ScanEvent) :
    (startScan true true (Except.ok permAllGranted) st).1.devices = [] ∧
    ((runScanEvents (startScan true true (Except.ok permAllGranted) st).1
        evs).devices.map Device.id).Nodup := by
  have h1 : (startScan true true (Except.ok permAllGranted) st).1 =
      { st with devices := [], scanning := true } := by
    simp [startScan, requestAndroidPermissions, permAllGranted]
  refine ⟨by rw [h1], ?_⟩
  rw [h1]
  exact runScanEvents_nodup evs _ (by simp)

/-- C6: with the BLE manager available, `connectToDevice` always emits the
`stopScan` effects (scan cancelled, subscription removed) before the connect
call, leaves the result with the scanning flag cleared and the device list
untouched, and stores the library's device in `connected` exactly on
success. -/
theorem connectToDevice_stops_scan_first (st : ScreenState) (dev : Device)
    (oc : ConnectOutcome) :
    (∃ rest, (connectToDevice true st dev oc).2 =
      Effect.stopDeviceScan :: Effect.removeSubscription ::
        Effect.connectDevice dev.id :: rest) ∧
    (connectToDevice true st dev oc).1.scanning = false ∧
    (connectToDevice true st dev oc).1.devices = st.devices ∧
    (connectToDevice true st dev oc).1.connected =
      (match oc with
       | ConnectOutcome.success d => some d
       | _ => st.connected) := by
  cases oc with
  | connectFailed =>
      exact ⟨⟨[Effect.log "connect error",
          Effect.alert "Error" "No se pudo conectar"],
        by simp [connectToDevice, stopScan]⟩,
        by simp [connectToDevice, stopScan]⟩
  | discoverFailed d =>
      exact ⟨⟨[Effect.discoverServices d.id, Effect.log "connect error",
          Effect.alert "Error" "No se pudo conectar"],
        by simp [connectToDevice, stopScan]⟩,
        by simp [connectToDevice, stopScan]⟩
  | success d =>
      exact ⟨⟨[Effect.discoverServices d.id,
          Effect.alert "Conectado" ("Conectado a " ++ displayName d)],
        by simp [connectToDevice, stopScan]⟩,
        by simp [connectToDevice, stopScan]⟩

/-- C7: a scan error delivered to the discovery callback clears the scanning
flag, changes nothing else in the state, and produces only console logs —
never a user-facing alert. -/
theorem scanError_clears_flag_logs_only (st : ScreenState) (msg : String) :
    (onScanEvent st (ScanEvent.scanError msg)).1.scanning = false ∧
    (onScanEvent st (ScanEvent.scanError msg)).1.devices = st.devices ∧
    (onScanEvent st (ScanEvent.scanError msg)).1.connected = st.connected ∧
    ((onScanEvent st (ScanEvent.scanError msg)).2.all
      fun e => !e.isAlert) = true ∧
    ((onScanEvent st (ScanEvent.scanError msg)).2.all
      fun e => e.isLog) = true := by
  simp [onScanEvent, Effect.isAlert, Effect.isLog]

/-- C8: on Android, `startScan` proceeds only when fine location or
Bluetooth-scan was granted: with neither granted it alerts `Permisos` and
returns the state unchanged (device list kept, no scan started); with at
least one granted it clears the list, sets the scanning flag and starts the
scan. -/
theorem startScan_permission_gate (st : ScreenState) (g : PermissionResults) :
    (g.fineLocation = false → g.bluetoothScan = false →
      startScan true true (Except.ok g) st =
        (st, [Effect.alert "Permisos"
          "No se concedieron permisos necesarios para escaneo BLE"])) ∧
    (g.fineLocation = true ∨ g.bluetoothScan = true →
      startScan true true (Except.ok g) st =
        ({ st with devices := [], scanning := true },
         [Effect.startDeviceScan])) := by
  constructor
  · intro h1 h2
    simp [startScan, requestAndroidPermissions, h1, h2]
  · intro h
    rcases h with h | h <;> simp [startScan, requestAndroidPermissions, h]

/-- C8 witness: Bluetooth-connect alone does not allow scanning (the list is
untouched), while fine location alone does. -/
theorem startScan_permission_gate_witness :
    startScan true true (Except.ok ⟨false, false, true⟩) ⟨[], false, none, ""⟩ =
      (⟨[], false, none, ""⟩, [Effect.alert "Permisos"
        "No se concedieron permisos necesarios para escaneo BLE"]) ∧
    startScan true true (Except.ok ⟨true, false, false⟩) ⟨[], false, none, ""⟩ =
      (⟨[], true, none, ""⟩, [Effect.startDeviceScan]) :=
  ⟨(startScan_permission_gate ⟨[], false, none, ""⟩ ⟨false, false, true⟩).1
      rfl rfl,
   (startScan_permission_gate ⟨[], false, none, ""⟩ ⟨true, false, false⟩).2
      (Or.inl rfl)⟩

/-- C10: a failure of the connect call or of service discovery leaves
`connected` exactly as it was before the attempt (also when the manager is
absent); only the full success path stores the connected device. -/
theorem connect_failure_preserves_connected (st : ScreenState)
    (dev d : Device) :
    (connectToDevice true st dev ConnectOutcome.connectFailed).1.connected =
      st.connected ∧
    (connectToDevice true st dev (ConnectOutcome.discoverFailed d)).1.connected =
      st.connected ∧
    (connectToDevice false st dev ConnectOutcome.connectFailed).1.connected =
      st.connected ∧
    (connectToDevice true st dev (ConnectOutcome.success d)).1.connected =
      some d := by
  simp [connectToDevice, stopScan]

/-- C2: pressing `Desconectar` while a device is connected throws
`ReferenceError` — the handler reads the free identifier `manager`, which is
bound nowhere in the component's scope (`componentScopeIds`) — so the
connection is never cancelled, `setConnected(null)` never runs and no alert
is shown. -/
theorem disconnect_reference_error :
    disconnectOnPress ⟨[], false, some ⟨"dev1", some "robot", []⟩, ""⟩ =
      Except.error "ReferenceError: manager is not defined" := rfl

end Mecanum
